import Mathlib

/-!
Verification of the baccarat shoe simulator (`baccarat_sim.py`).

The Python source is embedded shallowly:
* ranks are `Nat` (the program only ever creates ranks 1–13);
* Python's `raise IndexError` in `deal_card` becomes `Option.none`, and every
  caller propagates `none` the way an uncaught exception propagates;
* `random.Random` is abstracted: a shuffle is an explicit function parameter,
  and the batch runner's seed generator is an explicit state machine parameter;
* Python `int` configuration values that can be negative (`num_decks`,
  `burn_cards`, `max_hands`, seeds) are `Int`.
-/

namespace BaccaratSim

/-- Result record for one hand, mirroring the `HandResult` dataclass. -/
structure HandResult where
  shoe_id : Int
  hand_number : Int
  player_cards : List Nat
  banker_cards : List Nat
  player_total : Nat
  banker_total : Nat
  winner : String
  natural : Bool
  deriving DecidableEq

/-- `baccarat_value(rank)` from the source: `rank if rank < 10 else 0`. -/
def baccarat_value (rank : Nat) : Nat :=
  if rank < 10 then rank else 0

/-- `hand_total(cards)` from the source: `sum(baccarat_value(c) for c in cards) % 10`. -/
def hand_total (cards : List Nat) : Nat :=
  (cards.map baccarat_value).sum % 10

/-- `deal_card(shoe, pos)` from the source: raises (here: `none`) when
`pos >= len(shoe)`, otherwise returns `(shoe[pos], pos + 1)`. -/
def deal_card (shoe : List Nat) (pos : Nat) : Option (Nat × Nat) :=
  match shoe[pos]? with
  | none => none
  | some c => some (c, pos + 1)

/-- The winner comparison at the end of `play_hand` (lines 136–142). -/
def winnerOf (p_total b_total : Nat) : String :=
  if p_total > b_total then "P"
  else if b_total > p_total then "B"
  else "T"

/-- `play_hand(shoe, pos)` from the source.  Deals `P1, B1, P2, B2`, applies
the natural rule, the player draw rule and the banker tableau, and returns the
`HandResult` (with `shoe_id`/`hand_number` left at `-1`) plus the new cursor.
The five `elif` branches of the source's banker tableau all perform the same
draw, so they appear here as one guard that is the disjunction of the five
conditions. -/
def play_hand (shoe : List Nat) (pos : Nat) : Option (HandResult × Nat) :=
  (deal_card shoe pos).bind fun cp0 =>
  (deal_card shoe cp0.2).bind fun cp1 =>
  (deal_card shoe cp1.2).bind fun cp2 =>
  (deal_card shoe cp2.2).bind fun cp3 =>
    let p_cards : List Nat := [cp0.1, cp2.1]
    let b_cards : List Nat := [cp1.1, cp3.1]
    let p_total := hand_total p_cards
    let b_total := hand_total b_cards
    if p_total = 8 ∨ p_total = 9 ∨ b_total = 8 ∨ b_total = 9 then
      -- natural: no third cards
      some (⟨-1, -1, p_cards, b_cards, p_total, b_total,
             winnerOf p_total b_total, true⟩, cp3.2)
    else if p_total ≤ 5 then
      -- player draws a third card
      (deal_card shoe cp3.2).bind fun cp4 =>
        let p_cards := p_cards ++ [cp4.1]
        let p3_val := baccarat_value cp4.1
        if b_total ≤ 2 ∨ (b_total = 3 ∧ p3_val ≠ 8)
            ∨ (b_total = 4 ∧ (p3_val = 2 ∨ p3_val = 3 ∨ p3_val = 4 ∨ p3_val = 5 ∨ p3_val = 6 ∨ p3_val = 7))
            ∨ (b_total = 5 ∧ (p3_val = 4 ∨ p3_val = 5 ∨ p3_val = 6 ∨ p3_val = 7))
            ∨ (b_total = 6 ∧ (p3_val = 6 ∨ p3_val = 7)) then
          (deal_card shoe cp4.2).bind fun cp5 =>
            let b_cards := b_cards ++ [cp5.1]
            some (⟨-1, -1, p_cards, b_cards, hand_total p_cards, hand_total b_cards,
                   winnerOf (hand_total p_cards) (hand_total b_cards), false⟩, cp5.2)
        else
          some (⟨-1, -1, p_cards, b_cards, hand_total p_cards, hand_total b_cards,
                 winnerOf (hand_total p_cards) (hand_total b_cards), false⟩, cp4.2)
    else
      -- player stands on 6 or 7
      if b_total ≤ 5 then
        (deal_card shoe cp3.2).bind fun cp4 =>
          let b_cards := b_cards ++ [cp4.1]
          some (⟨-1, -1, p_cards, b_cards, hand_total p_cards, hand_total b_cards,
                 winnerOf (hand_total p_cards) (hand_total b_cards), false⟩, cp4.2)
      else
        some (⟨-1, -1, p_cards, b_cards, hand_total p_cards, hand_total b_cards,
               winnerOf (hand_total p_cards) (hand_total b_cards), false⟩, cp3.2)

/-- Closed form of one hand dealt from the six cards `c0, …, c5` available at
cursor `pos` (in deal order `P1 B1 P2 B2 P3 B3`), mirroring the branch
structure of `play_hand`.  Used to evaluate `play_hand` when at least six
cards remain. -/
def handExec (c0 c1 c2 c3 c4 c5 : Nat) (pos : Nat) : HandResult × Nat :=
  let p_cards : List Nat := [c0, c2]
  let b_cards : List Nat := [c1, c3]
  let p_total := hand_total p_cards
  let b_total := hand_total b_cards
  if p_total = 8 ∨ p_total = 9 ∨ b_total = 8 ∨ b_total = 9 then
    (⟨-1, -1, p_cards, b_cards, p_total, b_total, winnerOf p_total b_total, true⟩, pos + 4)
  else if p_total ≤ 5 then
    let p_cards := p_cards ++ [c4]
    let p3_val := baccarat_value c4
    if b_total ≤ 2 ∨ (b_total = 3 ∧ p3_val ≠ 8)
        ∨ (b_total = 4 ∧ (p3_val = 2 ∨ p3_val = 3 ∨ p3_val = 4 ∨ p3_val = 5 ∨ p3_val = 6 ∨ p3_val = 7))
        ∨ (b_total = 5 ∧ (p3_val = 4 ∨ p3_val = 5 ∨ p3_val = 6 ∨ p3_val = 7))
        ∨ (b_total = 6 ∧ (p3_val = 6 ∨ p3_val = 7)) then
      let b_cards := b_cards ++ [c5]
      (⟨-1, -1, p_cards, b_cards, hand_total p_cards, hand_total b_cards,
        winnerOf (hand_total p_cards) (hand_total b_cards), false⟩, pos + 6)
    else
      (⟨-1, -1, p_cards, b_cards, hand_total p_cards, hand_total b_cards,
        winnerOf (hand_total p_cards) (hand_total b_cards), false⟩, pos + 5)
  else if b_total ≤ 5 then
    let b_cards := b_cards ++ [c4]
    (⟨-1, -1, p_cards, b_cards, hand_total p_cards, hand_total b_cards,
      winnerOf (hand_total p_cards) (hand_total b_cards), false⟩, pos + 5)
  else
    (⟨-1, -1, p_cards, b_cards, hand_total p_cards, hand_total b_cards,
      winnerOf (hand_total p_cards) (hand_total b_cards), false⟩, pos + 4)

/-- Inversion for `deal_card`: a successful deal reads the card at `pos`
(within bounds) and advances the cursor by one. -/
def deal_card_some_inv : ∀ {shoe : List Nat} {pos : Nat} {cp : Nat × Nat},
    deal_card shoe pos = some cp →
      pos < shoe.length ∧ shoe[pos]? = some cp.1 ∧ cp.2 = pos + 1 := by
  intro shoe pos cp h
  unfold deal_card at h
  rcases hx : shoe[pos]? with _ | c <;> rw [hx] at h
  · cases h
  · injection h with h2
    subst h2
    refine ⟨?_, rfl, rfl⟩
    cases Nat.lt_or_ge pos shoe.length with
    | inl hh => exact hh
    | inr hh => rw [List.getElem?_eq_none hh] at hx; cases hx

/-- A successful `play_hand` advances the cursor by 4, 5 or 6 cards. -/
def play_hand_bounds_aux : ∀ {shoe : List Nat} {pos : Nat} {rp : HandResult × Nat},
    play_hand shoe pos = some rp → pos + 4 ≤ rp.2 ∧ rp.2 ≤ pos + 6 := by
  intro shoe pos rp hp
  unfold play_hand at hp
  rcases hd0 : deal_card shoe pos with _ | cp0 <;> rw [hd0] at hp
  · cases hp
  simp only [Option.some_bind] at hp
  obtain ⟨-, -, he0⟩ := deal_card_some_inv hd0
  rcases hd1 : deal_card shoe cp0.2 with _ | cp1 <;> rw [hd1] at hp
  · cases hp
  simp only [Option.some_bind] at hp
  obtain ⟨-, -, he1⟩ := deal_card_some_inv hd1
  rcases hd2 : deal_card shoe cp1.2 with _ | cp2 <;> rw [hd2] at hp
  · cases hp
  simp only [Option.some_bind] at hp
  obtain ⟨-, -, he2⟩ := deal_card_some_inv hd2
  rcases hd3 : deal_card shoe cp2.2 with _ | cp3 <;> rw [hd3] at hp
  · cases hp
  simp only [Option.some_bind] at hp
  obtain ⟨-, -, he3⟩ := deal_card_some_inv hd3
  split at hp
  · injection hp with hp2
    subst hp2
    simp only
    omega
  split at hp
  · rcases hd4 : deal_card shoe cp3.2 with _ | cp4 <;> rw [hd4] at hp
    · cases hp
    simp only [Option.some_bind] at hp
    obtain ⟨-, -, he4⟩ := deal_card_some_inv hd4
    split at hp
    · rcases hd5 : deal_card shoe cp4.2 with _ | cp5 <;> rw [hd5] at hp
      · cases hp
      simp only [Option.some_bind] at hp
      obtain ⟨-, -, he5⟩ := deal_card_some_inv hd5
      injection hp with hp2
      subst hp2
      simp only
      omega
    · injection hp with hp2
      subst hp2
      simp only
      omega
  · split at hp
    · rcases hd4 : deal_card shoe cp3.2 with _ | cp4 <;> rw [hd4] at hp
      · cases hp
      simp only [Option.some_bind] at hp
      obtain ⟨-, -, he4⟩ := deal_card_some_inv hd4
      injection hp with hp2
      subst hp2
      simp only
      omega
    · injection hp with hp2
      subst hp2
      simp only
      omega

/-- The shoe contents before shuffling: for each deck, ranks 1–13 with four
suits each, in the nested-loop order of `build_shoe` (lines 41–45). -/
def unshuffled_shoe (num_decks : Int) : List Nat :=
  (List.range num_decks.toNat).flatMap fun _ =>
    (List.range 13).flatMap fun rank => List.replicate 4 (rank + 1)

/-- `build_shoe(num_decks, rng)` from the source.  The `rng.shuffle` call is
abstracted as an explicit `shuffle` function; theorems assume it permutes its
input, which is all `random.shuffle` guarantees. -/
def build_shoe (num_decks : Int) (shuffle : List Nat → List Nat) : List Nat :=
  shuffle (unshuffled_shoe num_decks)

/-- The hand-cap half of the loop guard in `simulate_shoe` (line 187):
`max_hands is None or hand_number <= max_hands`. -/
def capOk (max_hands : Option Int) (hand_number : Nat) : Bool :=
  match max_hands with
  | none => true
  | some m => (hand_number : Int) ≤ m

/-- The `while` loop of `simulate_shoe` (lines 186–192): deal hands while the
cap allows and at least 6 cards remain, stamping `shoe_id` and `hand_number`
on each result. -/
def simLoop (shoe : List Nat) (max_hands : Option Int) (shoe_id : Int)
    (pos : Nat) (hand_number : Nat) : Option (List HandResult) :=
  if h : capOk max_hands hand_number = true ∧ pos + 6 ≤ shoe.length then
    match hp : play_hand shoe pos with
    | none => none
    | some rp =>
      match simLoop shoe max_hands shoe_id rp.2 (hand_number + 1) with
      | none => none
      | some rest =>
          some ({ rp.1 with shoe_id := shoe_id, hand_number := (hand_number : Int) } :: rest)
  else
    some []
termination_by shoe.length - pos
decreasing_by
  have hb := play_hand_bounds_aux hp
  omega

/-- `simulate_shoe` from the source: build the shoe, clamp and apply the
burn/cut offset, then run the dealing loop from hand number 1. -/
def simulate_shoe (shuffle : List Nat → List Nat) (shoe_id : Int)
    (num_decks : Int) (burn_cards : Int) (max_hands : Option Int) :
    Option (List HandResult) :=
  let shoe := build_shoe num_decks shuffle
  let burn := max 0 burn_cards
  let pos := min shoe.length (0 + burn.toNat)
  simLoop shoe max_hands shoe_id pos 1

/-- The `for shoe_id in range(1, num_shoes + 1)` loop of `simulate_many_shoes`
(lines 210–220): draw one child seed per shoe from the master generator, run
the shoe, and concatenate.  `randint` abstracts `rng.randint(0, 10**9)` as a
deterministic generator step, and `shuffleOf seed` abstracts
`random.Random(seed).shuffle`. -/
def manyLoop {G : Type} (randint : G → Int × G) (shuffleOf : Int → List Nat → List Nat)
    (num_decks burn_cards : Int) (max_hands : Option Int) :
    Nat → Int → G → Option (List HandResult)
  | 0, _, _ => some []
  | n + 1, shoe_id, g =>
    let sg := randint g
    match simulate_shoe (shuffleOf sg.1) shoe_id num_decks burn_cards max_hands with
    | none => none
    | some rs =>
      match manyLoop randint shuffleOf num_decks burn_cards max_hands n (shoe_id + 1) sg.2 with
      | none => none
      | some rest => some (rs ++ rest)

/-- `simulate_many_shoes` from the source: run `num_shoes` shoes with ids
starting at 1, threading the master generator state `g0`
(`random.Random(rng_seed)` seeded with the master seed). -/
def simulate_many_shoes {G : Type} (randint : G → Int × G)
    (shuffleOf : Int → List Nat → List Nat) (num_shoes num_decks burn_cards : Int)
    (max_hands : Option Int) (g0 : G) : Option (List HandResult) :=
  manyLoop randint shuffleOf num_decks burn_cards max_hands num_shoes.toNat 1 g0

/-- The master generator state after drawing `n` child seeds. -/
def genAfter {G : Type} (randint : G → Int × G) (g0 : G) : Nat → G
  | 0 => g0
  | n + 1 => (randint (genAfter randint g0 n)).2

/-- The child seed for the shoe at 0-based index `i`, drawn in shoe-index
order from the master generator. -/
def childSeed {G : Type} (randint : G → Int × G) (g0 : G) (i : Nat) : Int :=
  (randint (genAfter randint g0 i)).1

/-! ## Supporting lemmas -/

theorem deal_card_of_lt {shoe : List Nat} {pos : Nat} (h : pos < shoe.length) :
    deal_card shoe pos = some (shoe.get ⟨pos, h⟩, pos + 1) := by
  unfold deal_card
  rw [List.getElem?_eq_getElem h]
  rfl

theorem play_hand_eval {shoe : List Nat} {pos : Nat} (h : pos + 6 ≤ shoe.length) :
    play_hand shoe pos =
      some (handExec (shoe.get ⟨pos, by omega⟩) (shoe.get ⟨pos + 1, by omega⟩)
        (shoe.get ⟨pos + 1 + 1, by omega⟩) (shoe.get ⟨pos + 1 + 1 + 1, by omega⟩)
        (shoe.get ⟨pos + 1 + 1 + 1 + 1, by omega⟩)
        (shoe.get ⟨pos + 1 + 1 + 1 + 1 + 1, by omega⟩) pos) := by
  have h0 : pos < shoe.length := by omega
  have h1 : pos + 1 < shoe.length := by omega
  have h2 : pos + 1 + 1 < shoe.length := by omega
  have h3 : pos + 1 + 1 + 1 < shoe.length := by omega
  have h4 : pos + 1 + 1 + 1 + 1 < shoe.length := by omega
  have h5 : pos + 1 + 1 + 1 + 1 + 1 < shoe.length := by omega
  unfold play_hand
  rw [deal_card_of_lt h0]
  simp only [Option.some_bind]
  rw [deal_card_of_lt h1]
  simp only [Option.some_bind]
  rw [deal_card_of_lt h2]
  simp only [Option.some_bind]
  rw [deal_card_of_lt h3]
  simp only [Option.some_bind]
  rw [deal_card_of_lt h4]
  simp only [Option.some_bind]
  rw [deal_card_of_lt h5]
  simp only [Option.some_bind]
  dsimp only [handExec]
  split_ifs <;> rfl

theorem handExec_tableau {c0 c1 c2 c3 c4 c5 pos : Nat} {r : HandResult} {p : Nat}
    (h : handExec c0 c1 c2 c3 c4 c5 pos = (r, p)) (hnat : r.natural = false) :
    (r.player_cards.length = 3 ↔ hand_total (r.player_cards.take 2) ≤ 5) ∧
    (5 < hand_total (r.player_cards.take 2) →
      (r.banker_cards.length = 3 ↔ hand_total (r.banker_cards.take 2) ≤ 5)) ∧
    (hand_total (r.player_cards.take 2) ≤ 5 →
      (r.banker_cards.length = 3 ↔
        (hand_total (r.banker_cards.take 2) ≤ 2 ∨
         (hand_total (r.banker_cards.take 2) = 3 ∧ baccarat_value (r.player_cards.getD 2 0) ≠ 8) ∨
         (hand_total (r.banker_cards.take 2) = 4 ∧
           baccarat_value (r.player_cards.getD 2 0) ∈ ([2, 3, 4, 5, 6, 7] : List Nat)) ∨
         (hand_total (r.banker_cards.take 2) = 5 ∧
           baccarat_value (r.player_cards.getD 2 0) ∈ ([4, 5, 6, 7] : List Nat)) ∨
         (hand_total (r.banker_cards.take 2) = 6 ∧
           baccarat_value (r.player_cards.getD 2 0) ∈ ([6, 7] : List Nat))))) := by
  dsimp only [handExec] at h
  split_ifs at h with h1 h2 h3 h4
  · cases h; simp at hnat
  · cases h
    exact ⟨by simp [h2], by simp; omega, fun _ => by simpa using h3⟩
  · cases h
    exact ⟨by simp [h2], by simp; omega, fun _ => by simpa using h3⟩
  · cases h
    exact ⟨by simp; omega, by simp; omega, fun hc => absurd (by simpa using hc) h2⟩
  · cases h
    exact ⟨by simp; omega, by simp; omega, fun hc => absurd (by simpa using hc) h2⟩

/-- C1: for every shoe and cursor with at least 6 cards remaining, `play_hand`
succeeds and applies the third-card tableau exactly: when no natural occurred,
Player draws iff the initial player total is ≤ 5; if Player stood, Banker
draws iff the banker total is ≤ 5; if Player drew a third card of baccarat
value P3, Banker draws iff banker_total ≤ 2, or banker_total = 3 and P3 ≠ 8,
or banker_total = 4 and P3 ∈ {2..7}, or banker_total = 5 and P3 ∈ {4..7}, or
banker_total = 6 and P3 ∈ {6,7}; otherwise Banker stands. -/
theorem play_hand_third_card_tableau (shoe : List Nat) (pos : Nat)
    (h : pos + 6 ≤ shoe.length) :
    ∃ r p, play_hand shoe pos = some (r, p) ∧ (r.natural = false →
      (r.player_cards.length = 3 ↔ hand_total (r.player_cards.take 2) ≤ 5) ∧
      (5 < hand_total (r.player_cards.take 2) →
        (r.banker_cards.length = 3 ↔ hand_total (r.banker_cards.take 2) ≤ 5)) ∧
      (hand_total (r.player_cards.take 2) ≤ 5 →
        (r.banker_cards.length = 3 ↔
          (hand_total (r.banker_cards.take 2) ≤ 2 ∨
           (hand_total (r.banker_cards.take 2) = 3 ∧ baccarat_value (r.player_cards.getD 2 0) ≠ 8) ∨
           (hand_total (r.banker_cards.take 2) = 4 ∧
             baccarat_value (r.player_cards.getD 2 0) ∈ ([2, 3, 4, 5, 6, 7] : List Nat)) ∨
           (hand_total (r.banker_cards.take 2) = 5 ∧
             baccarat_value (r.player_cards.getD 2 0) ∈ ([4, 5, 6, 7] : List Nat)) ∨
           (hand_total (r.banker_cards.take 2) = 6 ∧
             baccarat_value (r.player_cards.getD 2 0) ∈ ([6, 7] : List Nat)))))) := by
  refine ⟨_, _, play_hand_eval h, fun hnat => handExec_tableau rfl hnat⟩

/-- Witness for C1: the spec's concrete scenario — shoe `[3,10,2,4,6,7]`,
Player `[3,2]` (total 5) draws the 6; Banker `[10,4]` (total 4) draws since
P3 = 6 ∈ {2..7}. -/
theorem play_hand_third_card_tableau_witness :
    ∃ r p, play_hand [3, 10, 2, 4, 6, 7] 0 = some (r, p) ∧ (r.natural = false →
      (r.player_cards.length = 3 ↔ hand_total (r.player_cards.take 2) ≤ 5) ∧
      (5 < hand_total (r.player_cards.take 2) →
        (r.banker_cards.length = 3 ↔ hand_total (r.banker_cards.take 2) ≤ 5)) ∧
      (hand_total (r.player_cards.take 2) ≤ 5 →
        (r.banker_cards.length = 3 ↔
          (hand_total (r.banker_cards.take 2) ≤ 2 ∨
           (hand_total (r.banker_cards.take 2) = 3 ∧ baccarat_value (r.player_cards.getD 2 0) ≠ 8) ∨
           (hand_total (r.banker_cards.take 2) = 4 ∧
             baccarat_value (r.player_cards.getD 2 0) ∈ ([2, 3, 4, 5, 6, 7] : List Nat)) ∨
           (hand_total (r.banker_cards.take 2) = 5 ∧
             baccarat_value (r.player_cards.getD 2 0) ∈ ([4, 5, 6, 7] : List Nat)) ∨
           (hand_total (r.banker_cards.take 2) = 6 ∧
             baccarat_value (r.player_cards.getD 2 0) ∈ ([6, 7] : List Nat)))))) :=
  play_hand_third_card_tableau [3, 10, 2, 4, 6, 7] 0 (by decide)

/-- C2: for every hand dealt by `play_hand` (any shoe, any cursor), if either
side's initial two-card total is 8 or 9 then no third card is dealt, the
natural flag is set and the cursor advances by exactly 4; conversely a
natural result has exactly 4 cards across the two sides and at least one
final total in {8, 9}. -/
theorem play_hand_natural_rule (shoe : List Nat) (pos : Nat) (r : HandResult) (p : Nat)
    (h : play_hand shoe pos = some (r, p)) :
    ((hand_total (r.player_cards.take 2) = 8 ∨ hand_total (r.player_cards.take 2) = 9 ∨
      hand_total (r.banker_cards.take 2) = 8 ∨ hand_total (r.banker_cards.take 2) = 9) →
      r.player_cards.length = 2 ∧ r.banker_cards.length = 2 ∧ r.natural = true ∧ p = pos + 4) ∧
    (r.natural = true →
      r.player_cards.length + r.banker_cards.length = 4 ∧
      (hand_total r.player_cards = 8 ∨ hand_total r.player_cards = 9 ∨
       hand_total r.banker_cards = 8 ∨ hand_total r.banker_cards = 9)) := by
  unfold play_hand at h
  rcases hd0 : deal_card shoe pos with _ | cp0 <;> rw [hd0] at h
  · cases h
  simp only [Option.some_bind] at h
  obtain ⟨-, -, he0⟩ := deal_card_some_inv hd0
  rcases hd1 : deal_card shoe cp0.2 with _ | cp1 <;> rw [hd1] at h
  · cases h
  simp only [Option.some_bind] at h
  obtain ⟨-, -, he1⟩ := deal_card_some_inv hd1
  rcases hd2 : deal_card shoe cp1.2 with _ | cp2 <;> rw [hd2] at h
  · cases h
  simp only [Option.some_bind] at h
  obtain ⟨-, -, he2⟩ := deal_card_some_inv hd2
  rcases hd3 : deal_card shoe cp2.2 with _ | cp3 <;> rw [hd3] at h
  · cases h
  simp only [Option.some_bind] at h
  obtain ⟨-, -, he3⟩ := deal_card_some_inv hd3
  split at h
  · rename_i h1
    injection h with h2
    cases h2
    exact ⟨fun _ => ⟨by simp, by simp, rfl, by omega⟩, fun _ => ⟨by simp, by simpa using h1⟩⟩
  · rename_i h1
    split at h
    · rcases hd4 : deal_card shoe cp3.2 with _ | cp4 <;> rw [hd4] at h
      · cases h
      simp only [Option.some_bind] at h
      split at h
      · rcases hd5 : deal_card shoe cp4.2 with _ | cp5 <;> rw [hd5] at h
        · cases h
        simp only [Option.some_bind] at h
        injection h with h2
        cases h2
        exact ⟨fun hc => absurd (by simpa using hc) h1, fun hn => by simp at hn⟩
      · injection h with h2
        cases h2
        exact ⟨fun hc => absurd (by simpa using hc) h1, fun hn => by simp at hn⟩
    · split at h
      · rcases hd4 : deal_card shoe cp3.2 with _ | cp4 <;> rw [hd4] at h
        · cases h
        simp only [Option.some_bind] at h
        injection h with h2
        cases h2
        exact ⟨fun hc => absurd (by simpa using hc) h1, fun hn => by simp at hn⟩
      · injection h with h2
        cases h2
        exact ⟨fun hc => absurd (by simpa using hc) h1, fun hn => by simp at hn⟩

/-- Witness for C2: the spec's concrete scenario — the four-card shoe
`[8,8,1,1]`, both sides dealt `[8,1]` with total 9: a natural tie, four cards
dealt, cursor advances from 0 to exactly 4. -/
theorem play_hand_natural_rule_witness :
    ((hand_total ((⟨-1, -1, [8, 1], [8, 1], 9, 9, "T", true⟩ : HandResult).player_cards.take 2) = 8 ∨
      hand_total ((⟨-1, -1, [8, 1], [8, 1], 9, 9, "T", true⟩ : HandResult).player_cards.take 2) = 9 ∨
      hand_total ((⟨-1, -1, [8, 1], [8, 1], 9, 9, "T", true⟩ : HandResult).banker_cards.take 2) = 8 ∨
      hand_total ((⟨-1, -1, [8, 1], [8, 1], 9, 9, "T", true⟩ : HandResult).banker_cards.take 2) = 9) →
      (⟨-1, -1, [8, 1], [8, 1], 9, 9, "T", true⟩ : HandResult).player_cards.length = 2 ∧
      (⟨-1, -1, [8, 1], [8, 1], 9, 9, "T", true⟩ : HandResult).banker_cards.length = 2 ∧
      (⟨-1, -1, [8, 1], [8, 1], 9, 9, "T", true⟩ : HandResult).natural = true ∧ 4 = 0 + 4) ∧
    ((⟨-1, -1, [8, 1], [8, 1], 9, 9, "T", true⟩ : HandResult).natural = true →
      (⟨-1, -1, [8, 1], [8, 1], 9, 9, "T", true⟩ : HandResult).player_cards.length +
        (⟨-1, -1, [8, 1], [8, 1], 9, 9, "T", true⟩ : HandResult).banker_cards.length = 4 ∧
      (hand_total (⟨-1, -1, [8, 1], [8, 1], 9, 9, "T", true⟩ : HandResult).player_cards = 8 ∨
       hand_total (⟨-1, -1, [8, 1], [8, 1], 9, 9, "T", true⟩ : HandResult).player_cards = 9 ∨
       hand_total (⟨-1, -1, [8, 1], [8, 1], 9, 9, "T", true⟩ : HandResult).banker_cards = 8 ∨
       hand_total (⟨-1, -1, [8, 1], [8, 1], 9, 9, "T", true⟩ : HandResult).banker_cards = 9)) :=
  play_hand_natural_rule [8, 8, 1, 1] 0 ⟨-1, -1, [8, 1], [8, 1], 9, 9, "T", true⟩ 4 (by decide)

theorem winnerOf_spec (a b : Nat) :
    (winnerOf a b = "T" ↔ a = b) ∧ (winnerOf a b = "P" ↔ b < a) ∧ (winnerOf a b = "B" ↔ a < b) := by
  unfold winnerOf
  split_ifs with h1 h2 <;> refine ⟨?_, ?_, ?_⟩ <;> simp <;> omega

/-- Every successful `play_hand` records totals recomputed from the final
card sequences, the winner via `winnerOf`, and advances the cursor by 4–6. -/
theorem play_hand_some_inv : ∀ {shoe : List Nat} {pos : Nat} {r : HandResult} {p : Nat},
    play_hand shoe pos = some (r, p) →
      r.player_total = hand_total r.player_cards ∧
      r.banker_total = hand_total r.banker_cards ∧
      r.winner = winnerOf r.player_total r.banker_total := by
  intro shoe pos r p hp
  unfold play_hand at hp
  rcases hd0 : deal_card shoe pos with _ | cp0 <;> rw [hd0] at hp
  · cases hp
  simp only [Option.some_bind] at hp
  rcases hd1 : deal_card shoe cp0.2 with _ | cp1 <;> rw [hd1] at hp
  · cases hp
  simp only [Option.some_bind] at hp
  rcases hd2 : deal_card shoe cp1.2 with _ | cp2 <;> rw [hd2] at hp
  · cases hp
  simp only [Option.some_bind] at hp
  rcases hd3 : deal_card shoe cp2.2 with _ | cp3 <;> rw [hd3] at hp
  · cases hp
  simp only [Option.some_bind] at hp
  split at hp
  · injection hp with hp2
    cases hp2
    exact ⟨rfl, rfl, rfl⟩
  split at hp
  · rcases hd4 : deal_card shoe cp3.2 with _ | cp4 <;> rw [hd4] at hp
    · cases hp
    simp only [Option.some_bind] at hp
    split at hp
    · rcases hd5 : deal_card shoe cp4.2 with _ | cp5 <;> rw [hd5] at hp
      · cases hp
      simp only [Option.some_bind] at hp
      injection hp with hp2
      cases hp2
      exact ⟨rfl, rfl, rfl⟩
    · injection hp with hp2
      cases hp2
      exact ⟨rfl, rfl, rfl⟩
  · split at hp
    · rcases hd4 : deal_card shoe cp3.2 with _ | cp4 <;> rw [hd4] at hp
      · cases hp
      simp only [Option.some_bind] at hp
      injection hp with hp2
      cases hp2
      exact ⟨rfl, rfl, rfl⟩
    · injection hp with hp2
      cases hp2
      exact ⟨rfl, rfl, rfl⟩

/-- C3: for every `HandResult` produced by `play_hand`, the winner is `"T"`
iff the totals are equal, `"P"` iff the player total is higher, `"B"` iff the
banker total is higher, where both totals are recomputed from the final card
sequences. -/
theorem play_hand_winner_rule (shoe : List Nat) (pos : Nat) (r : HandResult) (p : Nat)
    (h : play_hand shoe pos = some (r, p)) :
    r.player_total = hand_total r.player_cards ∧
    r.banker_total = hand_total r.banker_cards ∧
    (r.winner = "T" ↔ r.player_total = r.banker_total) ∧
    (r.winner = "P" ↔ r.banker_total < r.player_total) ∧
    (r.winner = "B" ↔ r.player_total < r.banker_total) := by
  obtain ⟨hpt, hbt, hw⟩ := play_hand_some_inv h
  refine ⟨hpt, hbt, ?_, ?_, ?_⟩ <;> rw [hw]
  · exact (winnerOf_spec _ _).1
  · exact (winnerOf_spec _ _).2.1
  · exact (winnerOf_spec _ _).2.2

/-- Witness for C3: the hand dealt from shoe `[3,10,2,4,6,7]` at cursor 0
ends `1 : 1`, a tie. -/
theorem play_hand_winner_rule_witness :
    (⟨-1, -1, [3, 2, 6], [10, 4, 7], 1, 1, "T", false⟩ : HandResult).player_total =
        hand_total (⟨-1, -1, [3, 2, 6], [10, 4, 7], 1, 1, "T", false⟩ : HandResult).player_cards ∧
    (⟨-1, -1, [3, 2, 6], [10, 4, 7], 1, 1, "T", false⟩ : HandResult).banker_total =
        hand_total (⟨-1, -1, [3, 2, 6], [10, 4, 7], 1, 1, "T", false⟩ : HandResult).banker_cards ∧
    ((⟨-1, -1, [3, 2, 6], [10, 4, 7], 1, 1, "T", false⟩ : HandResult).winner = "T" ↔
      (⟨-1, -1, [3, 2, 6], [10, 4, 7], 1, 1, "T", false⟩ : HandResult).player_total =
        (⟨-1, -1, [3, 2, 6], [10, 4, 7], 1, 1, "T", false⟩ : HandResult).banker_total) ∧
    ((⟨-1, -1, [3, 2, 6], [10, 4, 7], 1, 1, "T", false⟩ : HandResult).winner = "P" ↔
      (⟨-1, -1, [3, 2, 6], [10, 4, 7], 1, 1, "T", false⟩ : HandResult).banker_total <
        (⟨-1, -1, [3, 2, 6], [10, 4, 7], 1, 1, "T", false⟩ : HandResult).player_total) ∧
    ((⟨-1, -1, [3, 2, 6], [10, 4, 7], 1, 1, "T", false⟩ : HandResult).winner = "B" ↔
      (⟨-1, -1, [3, 2, 6], [10, 4, 7], 1, 1, "T", false⟩ : HandResult).player_total <
        (⟨-1, -1, [3, 2, 6], [10, 4, 7], 1, 1, "T", false⟩ : HandResult).banker_total) :=
  play_hand_winner_rule [3, 10, 2, 4, 6, 7] 0
    ⟨-1, -1, [3, 2, 6], [10, 4, 7], 1, 1, "T", false⟩ 6 (by decide)

/-- C7: `baccarat_value` fixes ranks 1–9 and sends 10–13 to 0; `hand_total`
is the sum of baccarat values mod 10 and hence always in [0, 9].  Both are
total functions. -/
theorem hand_evaluator_spec :
    (∀ rank : Nat, 1 ≤ rank → rank ≤ 9 → baccarat_value rank = rank) ∧
    (∀ rank : Nat, 10 ≤ rank → rank ≤ 13 → baccarat_value rank = 0) ∧
    (∀ cards : List Nat, cards ≠ [] → hand_total cards = (cards.map baccarat_value).sum % 10) ∧
    (∀ cards : List Nat, hand_total cards ≤ 9) := by
  refine ⟨?_, ?_, ?_, ?_⟩
  · intro rank h1 h9
    unfold baccarat_value
    rw [if_pos (by omega)]
  · intro rank h10 h13
    unfold baccarat_value
    rw [if_neg (by omega)]
  · intro cards _
    rfl
  · intro cards
    unfold hand_total
    omega

/-- Witness for C7 at rank 5, rank 11 and the hand `[5, 11]`. -/
theorem hand_evaluator_spec_witness :
    baccarat_value 5 = 5 ∧ baccarat_value 11 = 0 ∧
    hand_total [5, 11] = ([5, 11].map baccarat_value).sum % 10 ∧ hand_total [5, 11] ≤ 9 :=
  ⟨hand_evaluator_spec.1 5 (by decide) (by decide),
   hand_evaluator_spec.2.1 11 (by decide) (by decide),
   hand_evaluator_spec.2.2.1 [5, 11] (by decide),
   hand_evaluator_spec.2.2.2 [5, 11]⟩

theorem unshuffled_shoe_length (num_decks : Int) :
    (unshuffled_shoe num_decks).length = 52 * num_decks.toNat := by
  unfold unshuffled_shoe
  generalize num_decks.toNat = n
  induction n with
  | zero => rfl
  | succ k ih =>
      rw [List.range_succ, List.flatMap_append, List.length_append, ih]
      have hlen1 :
          (([k] : List Nat).flatMap fun _ =>
            (List.range 13).flatMap fun rank => List.replicate 4 (rank + 1)).length = 52 := rfl
      rw [hlen1]
      omega

theorem unshuffled_shoe_count (num_decks : Int) (rank : Nat) (h1 : 1 ≤ rank)
    (h13 : rank ≤ 13) :
    (unshuffled_shoe num_decks).count rank = 4 * num_decks.toNat := by
  unfold unshuffled_shoe
  generalize num_decks.toNat = n
  have hdeck : ((List.range 13).flatMap fun r => List.replicate 4 (r + 1)).count rank = 4 := by
    interval_cases rank <;> rfl
  induction n with
  | zero => rfl
  | succ k ih =>
      rw [List.range_succ, List.flatMap_append, List.count_append, ih]
      have he : (([k] : List Nat).flatMap fun _ =>
            (List.range 13).flatMap fun r => List.replicate 4 (r + 1)) =
          ((List.range 13).flatMap fun r => List.replicate 4 (r + 1)) ++ [] := rfl
      rw [he, List.count_append, List.count_nil, hdeck]
      omega

/-- C8: for every deck count ≥ 1 and any permutation as the shuffle,
`build_shoe` returns 52×D cards containing each rank 1–13 exactly 4×D
times. -/
theorem build_shoe_composition (num_decks : Int) (shuffle : List Nat → List Nat)
    (hD : 1 ≤ num_decks) (hperm : ∀ l, (shuffle l).Perm l) :
    (build_shoe num_decks shuffle).length = 52 * num_decks.toNat ∧
    ∀ rank : Nat, 1 ≤ rank → rank ≤ 13 →
      (build_shoe num_decks shuffle).count rank = 4 * num_decks.toNat := by
  have hp := hperm (unshuffled_shoe num_decks)
  constructor
  · rw [build_shoe, hp.length_eq, unshuffled_shoe_length]
  · intro rank h1 h13
    rw [build_shoe, hp.count_eq, unshuffled_shoe_count num_decks rank h1 h13]

/-- Witness for C8: one deck, identity shuffle — 52 cards, four aces. -/
theorem build_shoe_composition_witness :
    (build_shoe 1 (fun l => l)).length = 52 * (1 : Int).toNat ∧
    ∀ rank : Nat, 1 ≤ rank → rank ≤ 13 →
      (build_shoe 1 (fun l => l)).count rank = 4 * (1 : Int).toNat :=
  build_shoe_composition 1 (fun l => l) (by decide) (fun l => List.Perm.refl l)

/-- C10: a negative burn count behaves exactly like a burn count of 0 — it
is clamped, never rejected, and never moves the cursor backwards. -/
theorem simulate_shoe_negative_burn (shuffle : List Nat → List Nat)
    (shoe_id num_decks burn_cards : Int) (max_hands : Option Int)
    (hneg : burn_cards < 0) :
    simulate_shoe shuffle shoe_id num_decks burn_cards max_hands =
      simulate_shoe shuffle shoe_id num_decks 0 max_hands := by
  unfold simulate_shoe
  rw [max_eq_left hneg.le, max_self]

/-- Witness for C10 at burn count −1. -/
theorem simulate_shoe_negative_burn_witness :
    simulate_shoe (fun l => l) 1 1 (-1) (some 40) =
      simulate_shoe (fun l => l) 1 1 0 (some 40) :=
  simulate_shoe_negative_burn (fun l => l) 1 1 (-1) (some 40) (by decide)

/-- The dealing loop always terminates with a result: under its own guard it
never invokes `play_hand` without 6 cards available, so the out-of-cards
branch is unreachable. -/
theorem simLoop_isSome_of_le (shoe : List Nat) (mh : Option Int) (sid : Int) :
    ∀ (m pos hn : Nat), shoe.length - pos ≤ m →
      (simLoop shoe mh sid pos hn).isSome = true := by
  intro m
  induction m with
  | zero =>
      intro pos hn hm
      rw [simLoop]
      split
      · rename_i hg
        exact absurd hg.2 (by omega)
      · simp
  | succ k ih =>
      intro pos hn hm
      rw [simLoop]
      split
      · rename_i hg
        split
        · rename_i hnone
          rw [play_hand_eval hg.2] at hnone
          cases hnone
        · rename_i rp hrp
          have hb := play_hand_bounds_aux hrp
          have hrec := ih rp.2 (hn + 1) (by omega)
          split
          · rename_i hnone2
            rw [hnone2] at hrec
            simp at hrec
          · simp
      · simp

/-- C5: `deal_card` fails exactly when the cursor is at or past the end and
never reads out of bounds; a hand consumes at most 6 cards; with 6 cards
available `play_hand` always succeeds; and under the simulator's loop guard
the out-of-cards error is unreachable, so `simulate_shoe` never fails. -/
theorem dealer_out_of_cards_safety :
    (∀ (shoe : List Nat) (pos : Nat), deal_card shoe pos = none ↔ shoe.length ≤ pos) ∧
    (∀ (shoe : List Nat) (pos : Nat) (cp : Nat × Nat), deal_card shoe pos = some cp →
      pos < shoe.length ∧ shoe[pos]? = some cp.1 ∧ cp.2 = pos + 1) ∧
    (∀ (shoe : List Nat) (pos : Nat) (rp : HandResult × Nat), play_hand shoe pos = some rp →
      pos + 4 ≤ rp.2 ∧ rp.2 ≤ pos + 6) ∧
    (∀ (shoe : List Nat) (pos : Nat), pos + 6 ≤ shoe.length →
      (play_hand shoe pos).isSome = true) ∧
    (∀ (shuffle : List Nat → List Nat) (shoe_id num_decks burn_cards : Int)
      (max_hands : Option Int),
      (simulate_shoe shuffle shoe_id num_decks burn_cards max_hands).isSome = true) := by
  refine ⟨?_, ?_, ?_, ?_, ?_⟩
  · intro shoe pos
    unfold deal_card
    rcases hx : shoe[pos]? with _ | c
    · simpa [List.getElem?_eq_none_iff] using hx
    · simp only
      constructor
      · intro hc
        cases hc
      · intro hc
        rw [List.getElem?_eq_none hc] at hx
        cases hx
  · intro shoe pos cp h
    exact deal_card_some_inv h
  · intro shoe pos rp h
    exact play_hand_bounds_aux h
  · intro shoe pos h
    rw [play_hand_eval h]
    rfl
  · intro shuffle sid nd bc mh
    exact simLoop_isSome_of_le (build_shoe nd shuffle) mh sid
      (build_shoe nd shuffle).length _ 1 (by omega)

/-- Witness for C5 at a concrete shoe and configuration. -/
theorem dealer_out_of_cards_safety_witness :
    (deal_card [] 0 = none ↔ ([] : List Nat).length ≤ 0) ∧
    (0 < ([3] : List Nat).length ∧ ([3] : List Nat)[0]? = some ((3, 1) : Nat × Nat).1 ∧
      ((3, 1) : Nat × Nat).2 = 0 + 1) ∧
    (0 + 4 ≤ ((⟨-1, -1, [3, 2, 6], [10, 4, 7], 1, 1, "T", false⟩, 6) : HandResult × Nat).2 ∧
      ((⟨-1, -1, [3, 2, 6], [10, 4, 7], 1, 1, "T", false⟩, 6) : HandResult × Nat).2 ≤ 0 + 6) ∧
    (play_hand [3, 10, 2, 4, 6, 7] 0).isSome = true ∧
    (simulate_shoe (fun l => l) 1 1 0 (some 40)).isSome = true :=
  ⟨dealer_out_of_cards_safety.1 [] 0,
   dealer_out_of_cards_safety.2.1 [3] 0 (3, 1) (by decide),
   dealer_out_of_cards_safety.2.2.1 [3, 10, 2, 4, 6, 7] 0
     (⟨-1, -1, [3, 2, 6], [10, 4, 7], 1, 1, "T", false⟩, 6) (by decide),
   dealer_out_of_cards_safety.2.2.2.1 [3, 10, 2, 4, 6, 7] 0 (by decide),
   dealer_out_of_cards_safety.2.2.2.2 (fun l => l) 1 1 0 (some 40)⟩

/-- C4: for any deck count ≥ 1 (shuffle modeled as a permutation),
`simulate_shoe` succeeds; the dealing loop starts after the clamped burn
offset, returns `[]` as soon as the hand cap or the 6-card guard stops it,
deals a hand whenever the guard holds, and in particular a burn count ≥ the
shoe length or fewer than 6 remaining cards yields an empty result, not an
error. -/
theorem simulate_shoe_stopping (shuffle : List Nat → List Nat)
    (hperm : ∀ l, (shuffle l).Perm l) (shoe_id num_decks : Int) (hD : 1 ≤ num_decks)
    (burn_cards : Int) (max_hands : Option Int) :
    ∃ res, simulate_shoe shuffle shoe_id num_decks burn_cards max_hands =
        some res ∧
      simulate_shoe shuffle shoe_id num_decks burn_cards max_hands =
        simLoop (build_shoe num_decks shuffle) max_hands shoe_id
          (min (build_shoe num_decks shuffle).length (0 + (max 0 burn_cards).toNat)) 1 ∧
      (∀ pos hn,
        ¬(capOk max_hands hn = true ∧ pos + 6 ≤ (build_shoe num_decks shuffle).length) →
        simLoop (build_shoe num_decks shuffle) max_hands shoe_id pos hn = some []) ∧
      (∀ pos hn, capOk max_hands hn = true →
        pos + 6 ≤ (build_shoe num_decks shuffle).length →
        ∃ rp rest, play_hand (build_shoe num_decks shuffle) pos = some rp ∧
          simLoop (build_shoe num_decks shuffle) max_hands shoe_id pos hn =
            some ({ rp.1 with shoe_id := shoe_id, hand_number := (hn : Int) } :: rest)) ∧
      (52 * num_decks ≤ burn_cards → res = []) ∧
      (52 * num_decks - burn_cards < 6 → res = []) := by
  have hlen : (build_shoe num_decks shuffle).length = 52 * num_decks.toNat := by
    rw [build_shoe, (hperm _).length_eq, unshuffled_shoe_length]
  have hdef : simulate_shoe shuffle shoe_id num_decks burn_cards max_hands =
      simLoop (build_shoe num_decks shuffle) max_hands shoe_id
        (min (build_shoe num_decks shuffle).length (0 + (max 0 burn_cards).toNat)) 1 := rfl
  obtain ⟨res, hres⟩ := Option.isSome_iff_exists.mp
    (simLoop_isSome_of_le (build_shoe num_decks shuffle) max_hands shoe_id
      (build_shoe num_decks shuffle).length _ 1 (by omega))
  refine ⟨res, by rw [hdef]; exact hres, hdef, ?_, ?_, ?_, ?_⟩
  · intro pos hn hng
    rw [simLoop, dif_neg hng]
  · intro pos hn h1 h2
    obtain ⟨rp, hrp⟩ : ∃ rp, play_hand (build_shoe num_decks shuffle) pos = some rp :=
      ⟨_, play_hand_eval h2⟩
    have hb := play_hand_bounds_aux hrp
    obtain ⟨rest, hrest⟩ := Option.isSome_iff_exists.mp
      (simLoop_isSome_of_le (build_shoe num_decks shuffle) max_hands shoe_id
        (build_shoe num_decks shuffle).length rp.2 (hn + 1) (by omega))
    refine ⟨rp, rest, hrp, ?_⟩
    rw [simLoop, dif_pos ⟨h1, h2⟩]
    split
    · rename_i hnone
      rw [hnone] at hrp
      cases hrp
    · rename_i rp1 hrp1
      rw [hrp1] at hrp
      injection hrp with hrp2
      subst hrp2
      split
      · rename_i hnone2
        rw [hnone2] at hrest
        cases hrest
      · rename_i rest1 hrest1
        rw [hrest1] at hrest
        injection hrest with hrest2
        rw [hrest2]
  · intro hbig
    have hng : ¬(capOk max_hands 1 = true ∧
        min (build_shoe num_decks shuffle).length (0 + (max 0 burn_cards).toNat) + 6 ≤
          (build_shoe num_decks shuffle).length) :=
      fun hc => absurd hc.2 (by omega)
    rw [simLoop, dif_neg hng] at hres
    injection hres with hres2
    exact hres2.symm
  · intro hsmall
    have hng : ¬(capOk max_hands 1 = true ∧
        min (build_shoe num_decks shuffle).length (0 + (max 0 burn_cards).toNat) + 6 ≤
          (build_shoe num_decks shuffle).length) :=
      fun hc => absurd hc.2 (by omega)
    rw [simLoop, dif_neg hng] at hres
    injection hres with hres2
    exact hres2.symm

/-- Witness for C4: one deck, identity shuffle, the entire shoe burned — the
run is empty and error-free. -/
theorem simulate_shoe_stopping_witness :
    ∃ res, simulate_shoe (fun l => l) 1 1 52 (some 40) = some res ∧
      simulate_shoe (fun l => l) 1 1 52 (some 40) =
        simLoop (build_shoe 1 (fun l => l)) (some 40) 1
          (min (build_shoe 1 (fun l => l)).length (0 + (max 0 (52 : Int)).toNat)) 1 ∧
      (∀ pos hn,
        ¬(capOk (some 40) hn = true ∧ pos + 6 ≤ (build_shoe 1 (fun l => l)).length) →
        simLoop (build_shoe 1 (fun l => l)) (some 40) 1 pos hn = some []) ∧
      (∀ pos hn, capOk (some 40) hn = true →
        pos + 6 ≤ (build_shoe 1 (fun l => l)).length →
        ∃ rp rest, play_hand (build_shoe 1 (fun l => l)) pos = some rp ∧
          simLoop (build_shoe 1 (fun l => l)) (some 40) 1 pos hn =
            some ({ rp.1 with shoe_id := 1, hand_number := (hn : Int) } :: rest)) ∧
      (52 * (1 : Int) ≤ 52 → res = []) ∧
      (52 * (1 : Int) - 52 < 6 → res = []) :=
  simulate_shoe_stopping (fun l => l) (fun l => List.Perm.refl l) 1 1 (by decide) 52 (some 40)

theorem genAfter_step {G : Type} (randint : G → Int × G) (g0 : G) (n : Nat) :
    genAfter randint g0 (n + 1) = genAfter randint (randint g0).2 n := by
  induction n with
  | zero => rfl
  | succ k ih =>
      show (randint (genAfter randint g0 (k + 1))).2 = _
      rw [ih]
      rfl

theorem childSeed_step {G : Type} (randint : G → Int × G) (g0 : G) (n : Nat) :
    childSeed randint g0 (n + 1) = childSeed randint (randint g0).2 n := by
  unfold childSeed
  rw [genAfter_step]

theorem option_mapM_map {α β γ : Type} (g : α → β) (f : β → Option γ) :
    ∀ l : List α, (l.map g).mapM f = l.mapM fun a => f (g a) := by
  intro l
  induction l with
  | nil => rfl
  | cons a t ih => rw [List.map_cons, List.mapM_cons, List.mapM_cons, ih]

theorem manyLoop_decomp {G : Type} (randint : G → Int × G)
    (shuffleOf : Int → List Nat → List Nat) (nd bc : Int) (mh : Option Int) :
    ∀ (n : Nat) (sid : Int) (g : G),
      manyLoop randint shuffleOf nd bc mh n sid g =
        Option.map List.flatten ((List.range n).mapM fun i =>
          simulate_shoe (shuffleOf (childSeed randint g i)) (sid + (i : Int)) nd bc mh) := by
  intro n
  induction n with
  | zero => intro sid g; rfl
  | succ k ih =>
      intro sid g
      rw [List.range_succ_eq_map, List.mapM_cons, option_mapM_map]
      have hfun : (fun a : Nat =>
          simulate_shoe (shuffleOf (childSeed randint g (Nat.succ a))) (sid + ((Nat.succ a : Nat) : Int)) nd bc mh) =
          fun a : Nat =>
            simulate_shoe (shuffleOf (childSeed randint (randint g).2 a)) (sid + 1 + (a : Int)) nd bc mh := by
        funext a
        rw [childSeed_step]
        congr 1
        push_cast
        ring
      rw [hfun]
      show (match simulate_shoe (shuffleOf (randint g).1) sid nd bc mh with
            | none => none
            | some rs =>
              match manyLoop randint shuffleOf nd bc mh k (sid + 1) (randint g).2 with
              | none => none
              | some rest => some (rs ++ rest)) = _
      have hseed0 : childSeed randint g 0 = (randint g).1 := rfl
      rcases hs : simulate_shoe (shuffleOf (randint g).1) sid nd bc mh with _ | rs
      · rw [hseed0]
        push_cast
        rw [add_zero, hs]
        rfl
      · rw [ih, hseed0]
        push_cast
        rw [add_zero, hs]
        rcases hM : (List.range k).mapM (fun a : Nat =>
            simulate_shoe (shuffleOf (childSeed randint (randint g).2 a)) (sid + 1 + (a : Int)) nd bc mh)
          with _ | ls
        · rfl
        · simp

/-- C9: `simulate_many_shoes` is a pure function of its inputs — identical
(shoe count, deck count, burn count, hand cap, master generator state) give
identical output — and the batch decomposes into per-shoe runs whose child
seeds are drawn in shoe-index order from the single master generator. -/
theorem simulate_many_shoes_deterministic {G : Type} (randint : G → Int × G)
    (shuffleOf : Int → List Nat → List Nat) (num_shoes num_decks burn_cards : Int)
    (max_hands : Option Int) (g0 : G) :
    simulate_many_shoes randint shuffleOf num_shoes num_decks burn_cards max_hands g0 =
      Option.map List.flatten ((List.range num_shoes.toNat).mapM fun i =>
        simulate_shoe (shuffleOf (childSeed randint g0 i)) (1 + (i : Int)) num_decks
          burn_cards max_hands) := by
  unfold simulate_many_shoes
  exact manyLoop_decomp randint shuffleOf num_decks burn_cards max_hands num_shoes.toNat 1 g0

theorem manyLoop_nil {G : Type} (randint : G → Int × G)
    (shuffleOf : Int → List Nat → List Nat) (nd bc : Int) (mh : Option Int)
    (hnil : ∀ seed sid, simulate_shoe (shuffleOf seed) sid nd bc mh = some []) :
    ∀ (n : Nat) (sid : Int) (g : G),
      manyLoop randint shuffleOf nd bc mh n sid g = some [] := by
  intro n
  induction n with
  | zero => intro sid g; rfl
  | succ k ih =>
      intro sid g
      show (match simulate_shoe (shuffleOf (randint g).1) sid nd bc mh with
            | none => none
            | some rs =>
              match manyLoop randint shuffleOf nd bc mh k (sid + 1) (randint g).2 with
              | none => none
              | some rest => some (rs ++ rest)) = some []
      rw [hnil, ih]
      rfl

theorem simulate_shoe_nil_of_no_deck (shuffle : List Nat → List Nat)
    (hperm : ∀ l, (shuffle l).Perm l) (sid num_decks bc : Int) (mh : Option Int)
    (hD : num_decks ≤ 0) :
    simulate_shoe shuffle sid num_decks bc mh = some [] := by
  have h0 : (build_shoe num_decks shuffle).length = 0 := by
    rw [build_shoe, (hperm _).length_eq, unshuffled_shoe_length]
    omega
  have hdef : simulate_shoe shuffle sid num_decks bc mh =
      simLoop (build_shoe num_decks shuffle) mh sid
        (min (build_shoe num_decks shuffle).length (0 + (max 0 bc).toNat)) 1 := rfl
  rw [hdef, simLoop, dif_neg]
  exact fun hc => absurd hc.2 (by omega)

theorem simulate_shoe_nil_of_neg_cap (shuffle : List Nat → List Nat)
    (sid num_decks bc m : Int) (hm : m < 0) :
    simulate_shoe shuffle sid num_decks bc (some m) = some [] := by
  have hdef : simulate_shoe shuffle sid num_decks bc (some m) =
      simLoop (build_shoe num_decks shuffle) (some m) sid
        (min (build_shoe num_decks shuffle).length (0 + (max 0 bc).toNat)) 1 := rfl
  rw [hdef, simLoop, dif_neg]
  intro hc
  have := hc.1
  simp [capOk] at this
  omega

/-- Counterexample to C6 as stated: with a non-positive deck count (0) or a
negative hand cap (−1), `simulate_many_shoes` is not rejected at any
boundary — it runs the engine to completion and returns a normal (empty)
result rather than signalling a configuration error. -/
theorem config_rejection_counterexample :
    simulate_many_shoes (fun g : Unit => (0, g)) (fun _ l => l) 1 0 0 (some 40) () =
        some [] ∧
    simulate_many_shoes (fun g : Unit => (0, g)) (fun _ l => l) 1 8 0 (some (-1)) () =
        some [] := by
  constructor
  · show manyLoop (fun g : Unit => (0, g)) (fun _ l => l) 0 0 (some 40) 1 1 () = some []
    exact manyLoop_nil _ _ _ _ _
      (fun seed sid => simulate_shoe_nil_of_no_deck _ (fun l => List.Perm.refl l) sid 0 0
        (some 40) (by omega)) 1 1 ()
  · show manyLoop (fun g : Unit => (0, g)) (fun _ l => l) 8 0 (some (-1)) 1 1 () = some []
    exact manyLoop_nil _ _ _ _ _
      (fun seed sid => simulate_shoe_nil_of_neg_cap _ sid 8 0 (-1) (by omega)) 1 1 ()

/-- C6 (amended): configuration errors — a non-positive deck count or a
negative hand cap — are NOT rejected at any boundary: neither `main` nor
`simulate_many_shoes` validates them.  They flow into the engine, which
accepts them and returns an empty result list without raising (an empty shoe,
or a loop whose cap check fails immediately). -/
theorem config_errors_not_rejected {G : Type} (randint : G → Int × G)
    (shuffleOf : Int → List Nat → List Nat) (hperm : ∀ s l, (shuffleOf s l).Perm l)
    (num_shoes num_decks burn_cards : Int) (max_hands : Option Int) (g0 : G) :
    (num_decks ≤ 0 →
      simulate_many_shoes randint shuffleOf num_shoes num_decks burn_cards max_hands g0 =
        some []) ∧
    (∀ m : Int, max_hands = some m → m < 0 →
      simulate_many_shoes randint shuffleOf num_shoes num_decks burn_cards max_hands g0 =
        some []) := by
  constructor
  · intro hD
    unfold simulate_many_shoes
    exact manyLoop_nil _ _ _ _ _
      (fun seed sid => simulate_shoe_nil_of_no_deck _ (hperm seed) sid num_decks burn_cards
        max_hands hD) _ 1 g0
  · intro m hmh hm
    subst hmh
    unfold simulate_many_shoes
    exact manyLoop_nil _ _ _ _ _
      (fun seed sid => simulate_shoe_nil_of_neg_cap _ sid num_decks burn_cards m hm) _ 1 g0

/-- Witness for the amended C6: zero decks, and separately a −1 hand cap,
each produce an empty batch without error. -/
theorem config_errors_not_rejected_witness :
    simulate_many_shoes (fun g : Unit => (7, g)) (fun _ l => l) 2 0 5 none () = some [] ∧
    simulate_many_shoes (fun g : Unit => (7, g)) (fun _ l => l) 2 6 5 (some (-1)) () =
      some [] :=
  ⟨(config_errors_not_rejected (fun g : Unit => (7, g)) (fun _ l => l)
      (fun _ l => List.Perm.refl l) 2 0 5 none ()).1 (by omega),
   (config_errors_not_rejected (fun g : Unit => (7, g)) (fun _ l => l)
      (fun _ l => List.Perm.refl l) 2 6 5 (some (-1)) ()).2 (-1) rfl (by omega)⟩

end BaccaratSim
